import Mathlib

/-!
Shallow embedding of the code snippets of the `react-interview-questions`
repository (React/TypeScript interview questions and design-pattern notes),
together with theorems settling the claims about its specification.

Each definition is transcribed from one snippet of the repository; the doc
comment of a definition names the snippet it embeds.
-/

set_option linter.unusedVariables false

/-! ## Browser local storage (window.localStorage)

The storage is a finite map from string keys to string values, modelled as an
association list.  `lsGetItem` / `lsSetItem` embed `localStorage.getItem` /
`localStorage.setItem`. -/

/-- The contents of `window.localStorage`: string keys mapped to string
values. -/
def LocalStorage : Type := List (String × String)

/-- `window.localStorage.getItem(key)`: the stored string, or `none`
(JS `null`) when the key is absent. -/
def lsGetItem (key : String) (s : LocalStorage) : Option String :=
  (List.find? (fun p => p.1 = key) s).map (fun p => p.2)

/-- `window.localStorage.setItem(key, value)`: stores `value` under `key`,
overwriting any previous value for that key. -/
def lsSetItem (key value : String) (s : LocalStorage) : LocalStorage :=
  (key, value) :: List.filter (fun p => ¬ (p.1 = key)) s

/-! ## useLocalStorage (react design-patterns document)

```tsx
const useLocalStorage = (key: string, initialValue: any) => {
  const [storedValue, setStoredValue] = useState(() => {
    try {
      const item = window.localStorage.getItem(key);
      return item ? JSON.parse(item) : initialValue;
    } catch (error) {
      return initialValue;
    }
  });
  const setValue = (value: any) => {
    try {
      setStoredValue(value);
      window.localStorage.setItem(key, JSON.stringify(value));
    } catch (error) {
      console.error(error);
    }
  };
  return [storedValue, setValue];
};
```

`JSON.stringify` / `JSON.parse` are browser builtins, not repository code, so
they enter the embedding as parameters `stringify : α → String` and
`parse : String → Option α` (`none` models a `JSON.parse` throw, which the
hook's `try`/`catch` turns into `initialValue`).  Note the source guard
`item ? ... : ...`: an empty string is falsy in JS, so an empty stored item
also yields `initialValue`. -/

/-- The `useState` initializer of `useLocalStorage`: read the stored item for
`key`; a missing item, an empty (falsy) item, or a `JSON.parse` failure give
`initialValue`. -/
def useLocalStorageInit {α : Type} (parse : String → Option α)
    (key : String) (initialValue : α) (store : LocalStorage) : α :=
  match lsGetItem key store with
  | some item => if item = "" then initialValue else (parse item).getD initialValue
  | none => initialValue

/-- `setValue` of `useLocalStorage`: updates the in-memory `storedValue` and
writes `JSON.stringify(value)` to local storage under `key`.  The pair is
(in-memory hook state, local storage). -/
def setValue {α : Type} (stringify : α → String) (key : String) (value : α)
    (st : α × LocalStorage) : α × LocalStorage :=
  (value, lsSetItem key (stringify value) st.2)

/-! ## Question 13 `ComplexForm` reducer (useReducer snippet)

```tsx
type State = { count: number };
type Action = { type: 'increment' | 'decrement' };
const reducer = (state: State, action: Action): State => {
  switch (action.type) {
    case 'increment': return { count: state.count + 1 };
    case 'decrement': return { count: state.count - 1 };
    default: return state;
  }
};
```
-/

/-- The state `{ count: number }` of the question-13 `ComplexForm` snippet. -/
structure CFState where
  count : Int
deriving DecidableEq, Repr

/-- The action type `{ type: 'increment' | 'decrement' }`. -/
inductive CFAction where
  | increment
  | decrement
deriving DecidableEq, Repr

/-- The question-13 reducer. -/
def cfReducer (state : CFState) (action : CFAction) : CFState :=
  match action with
  | .increment => ⟨state.count + 1⟩
  | .decrement => ⟨state.count - 1⟩

/-- Claim C1 counterexample: round-trip properties do hold of operation pairs
used by the repository's snippets.  Dispatching `increment` then `decrement`
through the question-13 reducer returns the original state `{count: 5}`, and
`localStorage.getItem` immediately after `localStorage.setItem` (the pair
`useLocalStorage` is built on) returns the written value. -/
theorem C1_counterexample :
    cfReducer (cfReducer ⟨5⟩ .increment) .decrement = ⟨5⟩ ∧
    lsGetItem "name" (lsSetItem "name" "Alice" []) = some "Alice" := by
  constructor
  · rfl
  · rfl

/-- Claim C1 (amended): the increment/decrement reducer actions invert each
other on every state, and for every JSON-round-trippable value `v` (one with
`parse (stringify v) = some v` and a non-empty serialization), reading through
`useLocalStorage` immediately after its `setValue` wrote `v` returns `v`. -/
theorem C1_roundtrip {α : Type} (stringify : α → String)
    (parse : String → Option α) (key : String) (v init prev : α)
    (store : LocalStorage) (s : CFState)
    (hrt : parse (stringify v) = some v) (hne : stringify v ≠ "") :
    cfReducer (cfReducer s .increment) .decrement = s ∧
    useLocalStorageInit parse key init (setValue stringify key v (prev, store)).2 = v := by
  constructor
  · simp [cfReducer]
  · simp [useLocalStorageInit, setValue, lsSetItem, lsGetItem, List.find?, hne, hrt]

/-- Witness for C1: the round-trip theorem applied at a concrete
round-trippable value (the string "Alice" with the identity serialization,
for which parsing is exact). -/
theorem C1_roundtrip_witness :
    cfReducer (cfReducer ⟨5⟩ .increment) .decrement = ⟨5⟩ ∧
    useLocalStorageInit (fun s => some s) "name" ""
      (setValue (fun s => s) "name" "Alice" ("", [])).2 = "Alice" :=
  C1_roundtrip (fun s => s) (fun s => some s) "name" "Alice" "" "" [] ⟨5⟩
    rfl (by decide)

/-! ## The XState `toggleMachine` (react design-patterns document)

```tsx
const toggleMachine = createMachine({
  id: 'toggle',
  initial: 'inactive',
  states: {
    inactive: { on: { TOGGLE: 'active' } },
    active: { on: { TOGGLE: 'inactive' } },
  },
});
```

A machine definition is its id, its initial state, and, for each named state,
the event-labelled transitions out of it. -/

/-- An XState machine definition: id, initial state, and for each named state
the list of (event, target-state) transitions. -/
structure MachineDef where
  id : String
  initial : String
  states : List (String × List (String × String))
deriving DecidableEq, Repr

/-- The `toggleMachine` of the patterns document, transcribed field by
field. -/
def toggleMachine : MachineDef :=
  { id := "toggle"
    initial := "inactive"
    states := [("inactive", [("TOGGLE", "active")]),
               ("active", [("TOGGLE", "inactive")])] }

/-- The named states of a machine definition. -/
def MachineDef.stateNames (m : MachineDef) : List String :=
  m.states.map (fun s => s.1)

/-- The transition function XState derives from the definition: in state `s`,
on event `e`, the target state (or `none` when the event is not handled). -/
def MachineDef.transition (m : MachineDef) (s e : String) : Option String :=
  (List.find? (fun st => st.1 = s) m.states).bind
    (fun st => (List.find? (fun tr => tr.1 = e) st.2).map (fun tr => tr.2))

/-- A definition is a finite state machine when it has a non-empty fixed set
of named states, its initial state is one of them, and every transition
targets one of them. -/
def MachineDef.isFiniteStateMachine (m : MachineDef) : Bool :=
  !m.stateNames.isEmpty && m.stateNames.contains m.initial &&
    m.states.all (fun st => st.2.all (fun tr => m.stateNames.contains tr.2))

/-- Claim C2 counterexample: the patterns document does define a state
machine.  `toggleMachine` is a finite state machine in the claim's sense — a
fixed set of named states with an initial state and labelled transitions
between them. -/
theorem C2_counterexample : toggleMachine.isFiniteStateMachine = true := by
  rfl

/-- Claim C2 (amended): the repository's patterns document contains a state
machine: `toggleMachine`, whose named states are exactly `inactive` and
`active`, whose initial state is `inactive`, and whose only transitions are
`TOGGLE` from `inactive` to `active` and `TOGGLE` from `active` to
`inactive`. -/
theorem C2_toggleMachine_fsm :
    toggleMachine.stateNames = ["inactive", "active"] ∧
    toggleMachine.initial = "inactive" ∧
    toggleMachine.transition "inactive" "TOGGLE" = some "active" ∧
    toggleMachine.transition "active" "TOGGLE" = some "inactive" ∧
    ∀ s e t : String, toggleMachine.transition s e = some t →
      (s = "inactive" ∧ e = "TOGGLE" ∧ t = "active") ∨
      (s = "active" ∧ e = "TOGGLE" ∧ t = "inactive") := by
  refine ⟨rfl, rfl, rfl, rfl, ?_⟩
  intro s e t h
  by_cases hs : s = "inactive"
  · subst hs
    by_cases he : e = "TOGGLE"
    · subst he
      have h2 : toggleMachine.transition "inactive" "TOGGLE" = some "active" := rfl
      rw [h2] at h
      exact Or.inl ⟨rfl, rfl, (Option.some.inj h).symm⟩
    · exfalso
      have he' : ("TOGGLE" : String) ≠ e := fun x => he x.symm
      simp [MachineDef.transition, toggleMachine, List.find?, he'] at h
  · by_cases hs2 : s = "active"
    · subst hs2
      by_cases he : e = "TOGGLE"
      · subst he
        have h2 : toggleMachine.transition "active" "TOGGLE" = some "inactive" := rfl
        rw [h2] at h
        exact Or.inr ⟨rfl, rfl, (Option.some.inj h).symm⟩
      · exfalso
        have he' : ("TOGGLE" : String) ≠ e := fun x => he x.symm
        simp [MachineDef.transition, toggleMachine, List.find?, he'] at h
    · exfalso
      have h1 : ("inactive" : String) ≠ s := fun x => hs x.symm
      have h2 : ("active" : String) ≠ s := fun x => hs2 x.symm
      simp [MachineDef.transition, toggleMachine, List.find?, h1, h2] at h

/-- Witness for C2: the transition characterization applied at the concrete
transition `TOGGLE` out of `active`. -/
theorem C2_toggleMachine_fsm_witness :
    (toggleMachine.transition "active" "TOGGLE" = some "inactive") ∧
    ((("active" : String) = "inactive" ∧ ("TOGGLE" : String) = "TOGGLE" ∧
        ("inactive" : String) = "active") ∨
      (("active" : String) = "active" ∧ ("TOGGLE" : String) = "TOGGLE" ∧
        ("inactive" : String) = "inactive")) :=
  ⟨C2_toggleMachine_fsm.2.2.2.1,
   C2_toggleMachine_fsm.2.2.2.2 "active" "TOGGLE" "inactive" (by rfl)⟩

/-! ## Question 15 `useThrottle` (question20/question-solution.tsx)

```tsx
const useThrottle = (callback: () => void, delay: number) => {
  const lastCall = useRef<number>(0);
  return () => {
    const now = Date.now();
    if (now - lastCall.current >= delay) {
      callback();
      lastCall.current = now;
    }
  };
};
```

The ref cell is `lastCall` (initially 0); a call of the returned wrapper at
time `now` either invokes the callback and updates the ref, or does nothing.
The Boolean of the result records whether the underlying callback ran. -/

/-- The `useRef<number>(0)` cell of `useThrottle`. -/
structure ThrottleRef where
  lastCall : Int
deriving DecidableEq, Repr

/-- One call of the wrapper returned by `useThrottle`, at time `now`
(`Date.now()`), with rate limit `delay`: `(invoked?, updated ref)`. -/
def useThrottleCall (delay now : Int) (r : ThrottleRef) : Bool × ThrottleRef :=
  if now - r.lastCall ≥ delay then (true, ⟨now⟩) else (false, r)

/-! ## Question 15 `useDebounce` (question20/question-solution.tsx)

```tsx
useEffect(() => {
  const handler = setTimeout(() => { setDebouncedValue(value); }, delay);
  return () => { clearTimeout(handler); };
}, [value, delay]);
```

The browser timer queue is a list of (timer id, value-to-publish) pairs plus
a fresh-id counter. -/

/-- The pending `setTimeout` timers: a fresh-id counter and the scheduled
`setDebouncedValue` updates, as (id, value) pairs. -/
structure Timers where
  nextId : Nat
  pending : List (Nat × String)
deriving DecidableEq, Repr

/-- `setTimeout(() => setDebouncedValue(value), delay)`: schedules the update
and returns its handle. -/
def setTimeoutSchedule (value : String) (t : Timers) : Nat × Timers :=
  (t.nextId, ⟨t.nextId + 1, t.pending ++ [(t.nextId, value)]⟩)

/-- `clearTimeout(handler)`: removes the scheduled timer with that handle. -/
def clearTimeoutCancel (handler : Nat) (t : Timers) : Timers :=
  ⟨t.nextId, t.pending.filter (fun p => ¬ (p.1 = handler))⟩

/-- The body of the `useDebounce` effect: schedule the pending update. -/
def debounceEffect (value : String) (t : Timers) : Nat × Timers :=
  setTimeoutSchedule value t

/-- The cleanup returned by the `useDebounce` effect: cancel the pending
update. -/
def debounceCleanup (handler : Nat) (t : Timers) : Timers :=
  clearTimeoutCancel handler t

/-! ## Question 14 `DataFetchingComponent` (isMounted cleanup)

```tsx
const loadData = async () => {
  try {
    const result = await fetchData();
    if (isMounted) {
      setData(result);
      setLoading(false);
    }
  } catch (error) {
    // Handle error
  }
  };
...
return () => { isMounted = false; };
```
-/

/-- The component state of the question-14 `DataFetchingComponent`:
`data` (initially `[]`) and `loading` (initially `true`).  It has no error
state. -/
structure Q14State where
  data : List String
  loading : Bool
deriving DecidableEq, Repr

/-- The resolution path of `loadData`: when the fetch resolves with `result`,
the state is updated only if the component is still mounted. -/
def q14LoadDataResolve (isMounted : Bool) (result : List String)
    (st : Q14State) : Q14State :=
  if isMounted then ⟨result, false⟩ else st

/-- The catch branch of `loadData` (`// Handle error`): it does nothing. -/
def q14LoadDataCatch (msg : String) (st : Q14State) : Q14State :=
  st

/-- Claim C3 counterexample: a repository snippet does suppress calls of a
wrapped callback.  With `delay = 1000`, a wrapper call at time 1000500
following one at time 1000000 does not invoke the underlying callback, and the
`useDebounce` cleanup cancels the scheduled update, and the `isMounted` flag
cancels the resolved state update. -/
theorem C3_counterexample :
    (useThrottleCall 1000 1000500 (useThrottleCall 1000 1000000 ⟨0⟩).2).1 = false ∧
    (debounceCleanup (debounceEffect "a" ⟨0, []⟩).1
        (debounceEffect "a" ⟨0, []⟩).2).pending = [] ∧
    q14LoadDataResolve false ["fetched"] ⟨[], true⟩ = ⟨[], true⟩ := by
  refine ⟨by decide, by decide, by decide⟩

/-- Claim C3 (amended): the repository does implement custom scheduling and
cancellation logic.  `useThrottle`'s wrapper invokes the underlying callback
exactly when at least `delay` milliseconds have passed since the last
invocation, and suppresses it (leaving the ref unchanged) otherwise; the
`useDebounce` effect cleanup removes exactly the update it scheduled (for any
timer queue whose pending ids are older than the fresh counter); and when the
question-14 component has unmounted (`isMounted = false`) the resolved fetch
does not update the state. -/
theorem C3_scheduling_cancellation (delay now : Int) (r : ThrottleRef)
    (value : String) (t : Timers) (result : List String) (st : Q14State)
    (hfresh : ∀ p ∈ t.pending, p.1 < t.nextId) :
    ((useThrottleCall delay now r).1 = true ↔ now - r.lastCall ≥ delay) ∧
    ((useThrottleCall delay now r).1 = false → (useThrottleCall delay now r).2 = r) ∧
    (debounceCleanup (debounceEffect value t).1 (debounceEffect value t).2).pending
      = t.pending ∧
    q14LoadDataResolve false result st = st := by
  refine ⟨?_, ?_, ?_, ?_⟩
  · unfold useThrottleCall
    by_cases h : now - r.lastCall ≥ delay <;> simp [h]
  · unfold useThrottleCall
    by_cases h : now - r.lastCall ≥ delay <;> simp [h]
  · unfold debounceCleanup debounceEffect setTimeoutSchedule clearTimeoutCancel
    simp only [List.filter_append]
    have h1 : t.pending.filter (fun p => ¬ (p.1 = t.nextId)) = t.pending := by
      apply List.filter_eq_self.2
      intro p hp
      have := hfresh p hp
      simp
      omega
    have h2 : [(t.nextId, value)].filter (fun p : Nat × String => ¬ (p.1 = t.nextId)) = [] := by
      simp [List.filter]
    rw [h1, h2, List.append_nil]
  · rfl

/-- Witness for C3: the scheduling/cancellation theorem applied at concrete
inputs (delay 1000, a call 500 ms after the last invocation, an empty timer
queue). -/
theorem C3_scheduling_cancellation_witness :
    ((useThrottleCall 1000 1000500 ⟨1000000⟩).1 = true ↔
      (1000500 : Int) - 1000000 ≥ 1000) ∧
    ((useThrottleCall 1000 1000500 ⟨1000000⟩).1 = false →
      (useThrottleCall 1000 1000500 ⟨1000000⟩).2 = ⟨1000000⟩) ∧
    (debounceCleanup (debounceEffect "a" ⟨3, [(0, "x")]⟩).1
        (debounceEffect "a" ⟨3, [(0, "x")]⟩).2).pending = [(0, "x")] ∧
    q14LoadDataResolve false ["fetched"] ⟨[], true⟩ = ⟨[], true⟩ :=
  C3_scheduling_cancellation 1000 1000500 ⟨1000000⟩ "a" ⟨3, [(0, "x")]⟩
    ["fetched"] ⟨[], true⟩ (by decide)

/-- Claim C6 counterexample: an operation defined in the repository does
change state outside the running component's in-memory state.
`useLocalStorage`'s `setValue` at key "todos" turns the empty browser local
storage into one holding the serialized value, so the write survives the
component. -/
theorem C6_counterexample :
    (setValue (fun s => s) "todos" "milk" ("", [])).2 = [("todos", "milk")] := by
  rfl

/-- Helper: searching for a key other than the one filtered out is unaffected
by the filter `lsSetItem` applies. -/
theorem find_filter_ne_key (k key : String) (hk : k ≠ key)
    (s : List (String × String)) :
    List.find? (fun p => p.1 = k) (List.filter (fun p => ¬ (p.1 = key)) s)
      = List.find? (fun p => p.1 = k) s := by
  induction s with
  | nil => rfl
  | cons p rest ih =>
      rw [List.filter_cons]
      by_cases hp : p.1 = key
      · have h1 : (decide ¬ (p.1 = key)) = false := by simp [hp]
        rw [h1]
        have h2 : ¬ (p.1 = k) := by rw [hp]; exact fun x => hk x.symm
        simp only [Bool.false_eq_true, if_false]
        rw [ih, List.find?_cons_of_neg _ (by simp [h2])]
      · have h1 : (decide ¬ (p.1 = key)) = true := by simp [hp]
        rw [h1]
        simp only [if_true]
        by_cases hpk : p.1 = k
        · rw [List.find?_cons_of_pos _ (by simp [hpk]),
            List.find?_cons_of_pos _ (by simp [hpk])]
        · rw [List.find?_cons_of_neg _ (by simp [hpk]),
            List.find?_cons_of_neg _ (by simp [hpk]), ih]

/-- Claim C6 (amended): `useLocalStorage`'s `setValue` writes
`JSON.stringify(value)` to `window.localStorage` under its key — state outside
the component's in-memory state — and changes no other key, so the stored
data persists (as question 2's requirements also demand for the todo list). -/
theorem C6_setValue_persists {α : Type} (stringify : α → String) (key : String)
    (v prev : α) (store : LocalStorage) (k : String) (hk : k ≠ key) :
    (setValue stringify key v (prev, store)).2
        = lsSetItem key (stringify v) store ∧
    lsGetItem key (setValue stringify key v (prev, store)).2
        = some (stringify v) ∧
    lsGetItem k (setValue stringify key v (prev, store)).2 = lsGetItem k store := by
  refine ⟨rfl, ?_, ?_⟩
  · simp [setValue, lsSetItem, lsGetItem, List.find?]
  · show lsGetItem k ((key, stringify v) ::
      List.filter (fun p => ¬ (p.1 = key)) store) = lsGetItem k store
    unfold lsGetItem
    rw [List.find?_cons_of_neg _ (by simp; exact fun x => hk x.symm),
      find_filter_ne_key k key hk store]

/-- Witness for C6: the persistence theorem applied at key "todos", value
"milk", and the other key "name", over a storage already holding "name". -/
theorem C6_setValue_persists_witness :
    (setValue (fun s => s) "todos" "milk" ("", [("name", "Alice")])).2
        = lsSetItem "todos" "milk" [("name", "Alice")] ∧
    lsGetItem "todos" (setValue (fun s => s) "todos" "milk"
        ("", [("name", "Alice")])).2 = some "milk" ∧
    lsGetItem "name" (setValue (fun s => s) "todos" "milk"
        ("", [("name", "Alice")])).2 = lsGetItem "name" [("name", "Alice")] :=
  C6_setValue_persists (fun s => s) "todos" "milk" "" [("name", "Alice")]
    "name" (by decide)

/-! ## Error handling in the data-fetching snippets (claim C4)

Question 1 `question.tsx`:
```tsx
fetchUsers = async () => {
  try {
    const response = await axios.get<User[]>("https://api.example.com/users");
    this.setState({ users: response.data, loading: false });
  } catch (error) {
    this.setState({ error: error.message, loading: false });
  }
};
```

Question 16 `useFetch`:
```tsx
} catch (error) {
  setState({ data: null, loading: false, error: error.message });
}
```

Question 14 (`DataFetchingComponent`): the catch branch is `// Handle error`
— it does nothing (`q14LoadDataCatch` above). -/

/-- The `User` record of the question-1 files. -/
structure User where
  id : Int
  name : String
  email : String
deriving DecidableEq, Repr

/-- The question-1 class component state `{users, loading, error}`. -/
structure UserListState where
  users : List User
  loading : Bool
  error : Option String
deriving DecidableEq, Repr

/-- The catch branch of question-1 `question.tsx`'s `fetchUsers`: record the
error message and stop loading. -/
def fetchUsersCatch (msg : String) (st : UserListState) : UserListState :=
  { st with error := some msg, loading := false }

/-- The success branch of question-1 `question.tsx`'s `fetchUsers`: store the
response data and stop loading. -/
def fetchUsersSuccess (data : List User) (st : UserListState) : UserListState :=
  { st with users := data, loading := false }

/-- The question-16 `FetchState<T>` at `T = string[]`. -/
structure FetchState where
  data : Option (List String)
  loading : Bool
  error : Option String
deriving DecidableEq, Repr

/-- The catch branch of question-16 `useFetch`: replace the whole state with
`{data: null, loading: false, error: error.message}`. -/
def useFetchCatch (msg : String) (st : FetchState) : FetchState :=
  ⟨none, false, some msg⟩

/-- Claim C4 counterexample: not every data-fetching snippet handles a failed
fetch by recording the error and clearing `loading`.  The question-14
`DataFetchingComponent`'s catch branch leaves the state `{data: [], loading:
true}` completely unchanged — `loading` stays `true` and no error is recorded
(its state has no error field at all). -/
theorem C4_counterexample :
    q14LoadDataCatch "Network error" ⟨[], true⟩ = ⟨[], true⟩ ∧
    (q14LoadDataCatch "Network error" ⟨[], true⟩).loading = true := by
  exact ⟨rfl, rfl⟩

/-- Claim C4 (amended): in the question-1 and question-16 data-fetching
snippets, the catch branch on a failed fetch records the error message in the
error state, sets loading to false, and does nothing else (question 1 leaves
the users list untouched; question 16 resets data to null); but not in every
data-fetching snippet: the question-14 snippet's catch branch does nothing at
all, leaving its state unchanged. -/
theorem C4_error_handling (msg : String) (st : UserListState)
    (fst : FetchState) (qst : Q14State) :
    fetchUsersCatch msg st
        = { users := st.users, loading := false, error := some msg } ∧
    useFetchCatch msg fst = { data := none, loading := false, error := some msg } ∧
    q14LoadDataCatch msg qst = qst := by
  exact ⟨rfl, rfl, rfl⟩

/-! ## Question 1 `solution.tsx` (the deliberately buggy fetch) — claim C5

```tsx
const response = await axios.get<User[]>("https://api.example.com/users");
if (!response.ok) {
  throw new Error("Fetching data about users failed");
}
const { users } = response.data;
setUsers(users);
setLoading(false);
} catch (error: any) {
  setError(error.message);
  setLoading(false);
}
```

An axios response has `data`, `status`, ... but no `ok` field, so
`response.ok` is `undefined` and `!response.ok` is `true`.  A JS array also
has no `users` property, so the destructuring on the (unreachable) success
path would yield `undefined`. -/

/-- An axios response: `data` and `status`.  It has no `ok` field. -/
structure AxiosResponse where
  data : List User
  status : Int
deriving DecidableEq, Repr

/-- Reading the (absent) `ok` property of an axios response: `undefined`. -/
def axiosOkField (r : AxiosResponse) : Option Bool := none

/-- JS `!x` on a possibly-undefined boolean: `!undefined` is `true`. -/
def jsNotOpt (o : Option Bool) : Bool :=
  match o with
  | none => true
  | some b => !b

/-- Destructuring `const { users } = response.data` where `response.data` is a
JS array: an array has no `users` property, so the result is `undefined`. -/
def arrayUsersProp (a : List User) : Option (List User) := none

/-- The question-1 `solution.tsx` component state; `users` is optional so the
JS `undefined` a buggy `setUsers` call would store is representable (the
initial value is `some []`). -/
structure SolState where
  users : Option (List User)
  loading : Bool
  error : Option String
deriving DecidableEq, Repr

/-- `fetchUsers` of question-1 `solution.tsx`, as a state transformer on the
outcome of the `axios.get` call (`.error msg` models a rejected request). -/
def fetchUsersSolution (result : Except String AxiosResponse)
    (st : SolState) : SolState :=
  match result with
  | .ok response =>
      if jsNotOpt (axiosOkField response) then
        { st with error := some "Fetching data about users failed",
                  loading := false }
      else
        { st with users := arrayUsersProp response.data, loading := false }
  | .error msg => { st with error := some msg, loading := false }

/-! ## Question 4 `solution.tsx` `handleAgeChange` and JS `Number` -/

/-- A JS number as stored by `Number(value)`: either `NaN` or the finite
decimal `mantissa / 10 ^ fracDigits`. -/
inductive JsNum where
  | nan
  | num (mantissa : Int) (fracDigits : Nat)
deriving DecidableEq, Repr

/-- The natural number denoted by a list of decimal digit characters. -/
def digitsVal (cs : List Char) : Nat :=
  cs.foldl (fun acc c => acc * 10 + (c.toNat - 48)) 0

/-- Parse an optionally signed decimal literal (`-12`, `3.5`, `.5`, `7.`),
the trimmed-input grammar JS `Number` accepts for plain decimals; anything
else is rejected.  The result is (mantissa, number of fractional digits). -/
def jsParseDecimal (cs : List Char) : Option (Int × Nat) :=
  let sgn : Int × List Char :=
    match cs with
    | '-' :: r => (-1, r)
    | '+' :: r => (1, r)
    | _ => (1, cs)
  let ip := sgn.2.takeWhile Char.isDigit
  let rest := sgn.2.dropWhile Char.isDigit
  match rest with
  | [] => if ip.isEmpty then none else some (sgn.1 * digitsVal ip, 0)
  | '.' :: fr =>
      if fr.all Char.isDigit && !(ip.isEmpty && fr.isEmpty) then
        some (sgn.1 * digitsVal (ip ++ fr), fr.length)
      else none
  | _ => none

/-- Strip leading and trailing whitespace, as JS `Number` does before
parsing. -/
def trimChars (cs : List Char) : List Char :=
  ((cs.dropWhile Char.isWhitespace).reverse.dropWhile Char.isWhitespace).reverse

/-- JS `Number(value)` on a string: whitespace-only input gives 0, a decimal
literal gives its value, and every other (non-numeric) string gives `NaN`. -/
def jsToNumber (s : String) : JsNum :=
  let t := trimChars s.toList
  if t = [] then .num 0 0
  else
    match jsParseDecimal t with
    | some q => .num q.1 q.2
    | none => .nan

/-- The question-4 `UserProfile` state `{name: string, age: number}`. -/
structure ProfileUser where
  name : String
  age : JsNum
deriving DecidableEq, Repr

/-- `handleAgeChange` of question-4 `solution.tsx`: store `Number(value)`
into `age`, with no validity check. -/
def handleAgeChange (u : ProfileUser) (value : String) : ProfileUser :=
  { u with age := jsToNumber value }

/-- Claim C5: the flagged solution snippets are broken as described.  Every
execution of question-1 `solution.tsx`'s `fetchUsers` reaches the catch branch
— on every resolved axios response the guard `!response.ok` is true (an axios
response has no `ok` field), so the error state is set and the fetched user
list is never stored — and question-4 `solution.tsx`'s `handleAgeChange`
stores `Number(value)` unconditionally, so the non-numeric input "abc" puts
`NaN` into the age field. -/
theorem C5_broken_solutions (response : AxiosResponse)
    (result : Except String AxiosResponse) (st : SolState)
    (u : ProfileUser) (value : String) :
    jsNotOpt (axiosOkField response) = true ∧
    fetchUsersSolution (.ok response) st
        = { st with error := some "Fetching data about users failed",
                    loading := false } ∧
    (fetchUsersSolution result st).users = st.users ∧
    (fetchUsersSolution result st).loading = false ∧
    (fetchUsersSolution result st).error.isSome = true ∧
    handleAgeChange u value = { u with age := jsToNumber value } ∧
    jsToNumber "abc" = .nan ∧
    handleAgeChange u "abc" = { u with age := .nan } := by
  refine ⟨rfl, rfl, ?_, ?_, ?_, rfl, ?_, ?_⟩
  · cases result <;> rfl
  · cases result <;> rfl
  · cases result <;> rfl
  · rfl
  · rfl

/-! ## Question 25 `useFormValidation` (claim C9)

```tsx
const validate = () => {
  const newErrors: Errors = {};
  if (!form.name) newErrors.name = 'Name is required';
  if (!form.email) newErrors.email = 'Email is required';
  if (!form.password) newErrors.password = 'Password is required';
  setErrors(newErrors);
  return Object.keys(newErrors).length === 0;
};

const handleSubmit = (callback: () => void) => (e: React.FormEvent) => {
  e.preventDefault();
  if (validate()) { callback(); }
};
```

`!form.name` is the JS falsiness test; on a string it holds exactly for the
empty string. -/

/-- The question-25 `FormState`. -/
structure FormState where
  name : String
  email : String
  password : String
deriving DecidableEq, Repr

/-- The question-25 `Errors` object: an optional message per field. -/
structure FormErrors where
  name : Option String
  email : Option String
  password : Option String
deriving DecidableEq, Repr

/-- The number of keys of the errors object (`Object.keys(newErrors).length`):
absent fields are not keys. -/
def FormErrors.keyCount (e : FormErrors) : Nat :=
  (if e.name.isSome then 1 else 0) + (if e.email.isSome then 1 else 0) +
    (if e.password.isSome then 1 else 0)

/-- `validate` of `useFormValidation`: builds the errors object field by
field and returns `(newErrors, Object.keys(newErrors).length === 0)`. -/
def validate (form : FormState) : FormErrors × Bool :=
  let newErrors : FormErrors :=
    { name := if form.name = "" then some "Name is required" else none
      email := if form.email = "" then some "Email is required" else none
      password := if form.password = "" then some "Password is required" else none }
  (newErrors, newErrors.keyCount = 0)

/-- `handleSubmit` of `useFormValidation`: whether the submit callback is
invoked (it runs exactly when `validate()` returns true). -/
def handleSubmitInvokes (form : FormState) : Bool :=
  (validate form).2

/-- Claim C9: `validate` returns true exactly when `name`, `email` and
`password` are all non-empty; after the call the errors object has a message
precisely for each empty field (and no others); and `handleSubmit` invokes its
callback exactly when every field is non-empty. -/
theorem C9_useFormValidation (form : FormState) :
    ((validate form).2 = true ↔
      form.name ≠ "" ∧ form.email ≠ "" ∧ form.password ≠ "") ∧
    ((validate form).1.name = if form.name = "" then some "Name is required" else none) ∧
    ((validate form).1.email = if form.email = "" then some "Email is required" else none) ∧
    ((validate form).1.password
        = if form.password = "" then some "Password is required" else none) ∧
    ((validate form).1.name.isSome ↔ form.name = "") ∧
    ((validate form).1.email.isSome ↔ form.email = "") ∧
    ((validate form).1.password.isSome ↔ form.password = "") ∧
    (handleSubmitInvokes form = true ↔
      form.name ≠ "" ∧ form.email ≠ "" ∧ form.password ≠ "") := by
  have hmain : (validate form).2 = true ↔
      form.name ≠ "" ∧ form.email ≠ "" ∧ form.password ≠ "" := by
    unfold validate FormErrors.keyCount
    by_cases h1 : form.name = "" <;> by_cases h2 : form.email = "" <;>
      by_cases h3 : form.password = "" <;> simp [h1, h2, h3]
  refine ⟨hmain, ?_, ?_, ?_, ?_, ?_, ?_, hmain⟩
  · rfl
  · rfl
  · rfl
  · unfold validate
    by_cases h1 : form.name = "" <;> simp [h1]
  · unfold validate
    by_cases h2 : form.email = "" <;> simp [h2]
  · unfold validate
    by_cases h3 : form.password = "" <;> simp [h3]

/-! ## Question 21 Immer users reducer (claim C8)

```tsx
const reducer = (state: State, action: Action) => {
  return produce(state, (draft) => {
    switch (action.type) {
      case 'add_user':
        draft.users.push(action.payload);
        break;
      case 'update_user':
        const user = draft.users.find((u) => u.id === action.payload.id);
        if (user) { user.name = action.payload.name; }
        break;
      default:
        break;
    }
  });
};
```

`Array.prototype.find` returns the first matching element, and the draft
mutation renames exactly that element. -/

/-- The `{ id: number; name: string }` users of the question-21 snippet. -/
structure IUser where
  id : Int
  name : String
deriving DecidableEq, Repr

/-- The question-21 state `{ users: {id, name}[] }`. -/
structure IState where
  users : List IUser
deriving DecidableEq, Repr

/-- The question-21 actions. -/
inductive IAction where
  | add_user (payload : IUser)
  | update_user (payload : IUser)
deriving DecidableEq, Repr

/-- Rename the first user whose id matches (the effect of mutating the
element `find` returned); leave the list unchanged when no id matches. -/
def updateFirst (users : List IUser) (i : Int) (n : String) : List IUser :=
  match users with
  | [] => []
  | u :: rest =>
      if u.id = i then { u with name := n } :: rest
      else u :: updateFirst rest i n

/-- The question-21 Immer reducer. -/
def immerReducer (state : IState) (action : IAction) : IState :=
  match action with
  | .add_user payload => ⟨state.users ++ [payload]⟩
  | .update_user payload => ⟨updateFirst state.users payload.id payload.name⟩

/-- Helper: `updateFirst` is the identity when no user has the id. -/
theorem updateFirst_no_match (users : List IUser) (i : Int) (n : String)
    (h : ∀ u ∈ users, u.id ≠ i) : updateFirst users i n = users := by
  induction users with
  | nil => rfl
  | cons u rest ih =>
      have hu : ¬ (u.id = i) := h u (List.mem_cons_self u rest)
      simp only [updateFirst, hu, if_false]
      rw [ih (fun v hv => h v (List.mem_cons_of_mem u hv))]

/-- Helper: when position `k` holds the first user with id `i`, `updateFirst`
renames exactly that entry. -/
theorem updateFirst_first_match (users : List IUser) (i : Int) (n : String) :
    ∀ k uk, users.get? k = some uk → uk.id = i →
      (∀ j, j < k → ∀ uj, users.get? j = some uj → uj.id ≠ i) →
      updateFirst users i n = users.set k ⟨i, n⟩ := by
  induction users with
  | nil => intro k uk hget; simp [List.get?] at hget
  | cons u rest ih =>
      intro k uk hget hmatch hbefore
      cases k with
      | zero =>
          have hu : u = uk := by simpa [List.get?] using hget
          subst hu
          cases u with
          | mk uid uname =>
              simp only [updateFirst, List.set]
              have hid : uid = i := hmatch
              subst hid
              simp
      | succ k' =>
          have hget0 : (u :: rest).get? 0 = some u := rfl
          have hu : ¬ (u.id = i) := hbefore 0 (Nat.succ_pos k') u hget0
          simp only [updateFirst, hu, if_false, List.set]
          have hget' : rest.get? k' = some uk := by simpa [List.get?] using hget
          rw [ih k' uk hget' hmatch
            (fun j hj uj hgj => hbefore (j + 1) (Nat.succ_lt_succ hj) uj
              (by simpa [List.get?] using hgj))]

/-- Claim C8: the Immer reducer is frame-preserving and total.  `add_user`
appends the payload, keeping every existing user; `update_user` with an id no
user has returns the state unchanged; and `update_user` whose id first occurs
at position `k` replaces only that entry, keeping its id and every other user
(`List.set` changes position `k` alone). -/
theorem C8_immerReducer_frame (s : IState) (p : IUser) :
    immerReducer s (.add_user p) = ⟨s.users ++ [p]⟩ ∧
    ((∀ u ∈ s.users, u.id ≠ p.id) → immerReducer s (.update_user p) = s) ∧
    (∀ k uk, s.users.get? k = some uk → uk.id = p.id →
      (∀ j, j < k → ∀ uj, s.users.get? j = some uj → uj.id ≠ p.id) →
      (immerReducer s (.update_user p)).users = s.users.set k ⟨p.id, p.name⟩) := by
  refine ⟨rfl, ?_, ?_⟩
  · intro h
    show (⟨updateFirst s.users p.id p.name⟩ : IState) = s
    rw [updateFirst_no_match s.users p.id p.name h]
  · intro k uk hget hmatch hbefore
    exact updateFirst_first_match s.users p.id p.name k uk hget hmatch hbefore

/-- Witness for C8: the frame theorem applied to the concrete state
`{users: [{id:1,name:"a"}, {id:2,name:"b"}, {id:2,name:"c"}]}` and the action
`update_user {id:2, name:"x"}`: only the first user with id 2 is renamed. -/
theorem C8_immerReducer_frame_witness :
    (immerReducer ⟨[⟨1, "a"⟩, ⟨2, "b"⟩, ⟨2, "c"⟩]⟩
        (.update_user ⟨2, "x"⟩)).users = [⟨1, "a"⟩, ⟨2, "x"⟩, ⟨2, "c"⟩] := by
  have h := (C8_immerReducer_frame ⟨[⟨1, "a"⟩, ⟨2, "b"⟩, ⟨2, "c"⟩]⟩ ⟨2, "x"⟩).2.2
    1 ⟨2, "b"⟩ rfl rfl
    (fun j hj uj hgj => by
      have hj0 : j = 0 := by omega
      subst hj0
      have huj : uj = ⟨1, "a"⟩ := by
        have : some (⟨1, "a"⟩ : IUser) = some uj := by simpa [List.get?] using hgj
        exact (Option.some.inj this).symm
      subst huj
      decide)
  simpa using h

/-! ## Source files and their imports (claim C7)

Each repository source file with the module specifiers of its `import`
statements (static and dynamic) and `require` calls, transcribed from the
sources; for the pattern document and the question-25/.../question-15 files
whose real file names are unknown, the placeholder paths `unnamed/part_00N`
are used.  Duplicate specifiers within a file are listed once.  A relative
specifier resolves inside the repository exactly when some repository file
defines a module of that name (compared by extension-stripped basename — an
over-approximation of Node resolution, since the directory layout could only
remove matches). -/

/-- A repository source file: its path and the module specifiers it
imports. -/
structure SourceFile where
  path : String
  imports : List String
deriving DecidableEq, Repr

/-- All 21 source files of the repository and their import specifiers. -/
def repoFiles : List SourceFile :=
  [⟨"react-interview-questions/question1/question.tsx", ["react", "axios"]⟩,
   ⟨"react-interview-questions/question1/solution.tsx", ["react", "axios"]⟩,
   ⟨"react-interview-questions/question2/question.md", []⟩,
   ⟨"react-interview-questions/question4/question.tsx", ["react", "immer"]⟩,
   ⟨"react-interview-questions/question4/solution.tsx", ["react"]⟩,
   ⟨"react-interview-questions/question7/question-solution.tsx", ["react"]⟩,
   ⟨"react-interview-questions/question8/question-solution.tsx", ["react"]⟩,
   ⟨"react-interview-questions/question16/question-solution.tsx", ["react"]⟩,
   ⟨"react-interview-questions/question17/question-solution.tsx",
      ["react", "react-window"]⟩,
   ⟨"react-interview-questions/question20/question-solution.tsx",
      ["react", "./LazyComponent"]⟩,
   ⟨"react-interview-questions/question22/question-solution.tsx", ["react"]⟩,
   ⟨"react-interview-questions/question23/question-solution.tsx", ["react"]⟩,
   ⟨"react-interview-questions/question24/question-solution.tsx", ["react"]⟩,
   ⟨"unnamed/part_000",
      ["react", "next", "react-redux", "@reduxjs/toolkit", "xstate",
       "@xstate/react", "i18next", "react-i18next", "zustand", "recoil",
       "react-query", "formik", "framer-motion", "react-dnd",
       "socket.io-client", "@auth0/auth0-react", "unleash-client-react",
       "immer", "y-webrtc", "yjs", "@react-three/fiber", "@tensorflow/tfjs",
       "@sentry/react", "@sentry/tracing", "scheduler", "react-reconciler",
       "react-devtools-core", "react-dom", "react-dom/server",
       "styled-components", "@storybook/react", "@testing-library/react",
       "@apollo/client", "webpack/lib/container/ModuleFederationPlugin",
       "workbox-webpack-plugin", "http", "app1/Button",
       "../atoms/Input", "../atoms/Button", "../molecules/SearchBar",
       "../components/UserList", "../hooks/useFetch", "./slices/userSlice",
       "../store/slices/userSlice", "./LazyComponent", "./OtherComponent",
       "./Button", "./serviceWorkerRegistration", "./App",
       "../path/to/wasm"]⟩,
   ⟨"unnamed/part_001", ["react"]⟩,
   ⟨"unnamed/part_002", ["react"]⟩,
   ⟨"unnamed/part_003", ["react"]⟩,
   ⟨"unnamed/part_004", []⟩,
   ⟨"unnamed/part_005", ["react", "react-hook-form"]⟩,
   ⟨"unnamed/part_006", ["react"]⟩,
   ⟨"unnamed/part_007", ["react"]⟩]

/-- The basename of a path: everything after the last `/`. -/
def baseNameChars (cs : List Char) : List Char :=
  (cs.reverse.takeWhile (fun c => ¬ (c = '/'))).reverse

/-- Strip the extension (everything from the last `.` on), when there is
one. -/
def dropExtChars (cs : List Char) : List Char :=
  if cs.contains '.' then
    ((cs.reverse.dropWhile (fun c => ¬ (c = '.'))).drop 1).reverse
  else cs

/-- The module name a path or specifier denotes: its extension-stripped
basename. -/
def moduleKey (s : String) : List Char :=
  dropExtChars (baseNameChars s.toList)

/-- A specifier is relative (repository-internal if it resolved) exactly when
it starts with `./` or `../`; every other specifier names an external
package. -/
def isRelativeSpec (s : String) : Bool :=
  match s.toList with
  | '.' :: '/' :: _ => true
  | '.' :: '.' :: '/' :: _ => true
  | _ => false

/-- Whether an import specifier resolves to a file of the repository. -/
def resolvesToRepoFile (files : List SourceFile) (spec : String) : Bool :=
  isRelativeSpec spec && files.any (fun f => moduleKey f.path = moduleKey spec)

/-- Whether source file `f` imports a module defined by source file `g`. -/
def importsFromFile (f g : SourceFile) : Bool :=
  f.imports.any (fun s => isRelativeSpec s && moduleKey s = moduleKey g.path)

/-- Claim C7: every source file is independent of every other.  No import
specifier of any repository file resolves to a repository file (each resolves
to an external library or to a module that does not exist in the repository,
like question 20's `./LazyComponent`), so no file imports a definition from
another. -/
theorem C7_files_independent :
    (∀ f ∈ repoFiles, ∀ spec ∈ f.imports,
      resolvesToRepoFile repoFiles spec = false) ∧
    (∀ f ∈ repoFiles, ∀ g ∈ repoFiles, importsFromFile f g = false) := by
  constructor
  · decide
  · decide

/-- Witness for C7: the independence theorem applied to question 20's file
and its `./LazyComponent` specifier, the only relative import in the question
files. -/
theorem C7_files_independent_witness :
    resolvesToRepoFile repoFiles "./LazyComponent" = false :=
  C7_files_independent.1
    ⟨"react-interview-questions/question20/question-solution.tsx",
      ["react", "./LazyComponent"]⟩
    (by decide) "./LazyComponent" (by decide)
